import Mathlib

/-!
# Verification of the spaced-repetition scheduler

Shallow embedding of `app/flask_app/scheduler.py` (`compute_schedule`) and of
the `UserWord` record from `app/flask_app/models.py`.

Modelling conventions:
* Python floats are modelled as exact rationals (`ℚ`).
* Timestamps are rational day counts (UTC); `timedelta(days=d)` is `+ d`,
  `timedelta(minutes=m)` is `+ m / 1440`.
* `datetime.now(timezone.utc)` at the top of `compute_schedule` is modelled as
  the explicit parameter `now` (the value of that single clock read).
* The dict lookup `GRADE_SCORES[grade]`, which raises `KeyError` for an
  unknown key, is modelled with `Option`; `compute_schedule` returns `Except`
  and errors exactly when the lookup fails (the very first statement of the
  function, before anything is computed or assigned).
* `round(x, 4)` is Python's round-half-to-even at 4 decimal places.
* `repetitions` is a natural number (the column defaults to 0 and the
  scheduler only ever stores `0`, `max 1 r` or `r + 1`).
* `last_grade` is `Option String` (the column is nullable).
* DB-only columns of `UserWord` (`id`, `word_id`, `updated_at`) play no role
  in the scheduler and are omitted.
-/

/-- Grade scores `{"recognize": 5, "barely": 3, "not": 1}`; lookup of a
missing key (a `KeyError` in Python) is `none`. -/
def GRADE_SCORES (grade : String) : Option ℤ :=
  if grade = "recognize" then some 5
  else if grade = "barely" then some 3
  else if grade = "not" then some 1
  else none

/-- The scheduler-relevant fields of the `UserWord` model. -/
structure UserWord where
  user_id : ℤ
  easiness : ℚ
  interval : ℚ
  repetitions : ℕ
  next_due : ℚ
  last_grade : Option String
deriving DecidableEq, Repr

/-- Embeds `timedelta(minutes=m)` as a day count. -/
def minutes (m : ℚ) : ℚ := m / 1440

/-- Round-half-to-even to an integer (Python's rounding mode). -/
def roundHalfEven (q : ℚ) : ℤ :=
  if q - ⌊q⌋ < 1/2 then ⌊q⌋
  else if 1/2 < q - ⌊q⌋ then ⌊q⌋ + 1
  else if ⌊q⌋ % 2 = 0 then ⌊q⌋ else ⌊q⌋ + 1

/-- Embeds Python's `round(x, 4)`. -/
def round4 (q : ℚ) : ℚ := (roundHalfEven (q * 10000) : ℚ) / 10000

/-- The final field assignments of `compute_schedule`
(`user_word.easiness = round(easiness, 4)` … `user_word.last_grade = grade`)
and the `return user_word, next_due`. -/
def finalizeWord (uw : UserWord) (easiness : ℚ) (repetitions : ℕ)
    (interval_days next_due : ℚ) (grade : String) :
    Except Unit (UserWord × ℚ) :=
  Except.ok
    ({ uw with
        easiness := round4 easiness
        repetitions := repetitions
        interval := interval_days
        next_due := next_due
        last_grade := some grade }, next_due)

/-- Embeds `compute_schedule(user_word, grade, user_id)` from
`app/flask_app/scheduler.py`, with the internal clock read surfaced as the
parameter `now`.  Returns the updated record together with the `next_due`
value (the Python function mutates `user_word` in place and returns the
pair); an unknown grade raises `KeyError` at the first line, modelled as
`Except.error ()` with no updated record produced. -/
def compute_schedule (user_word : Option UserWord) (grade : String)
    (user_id : ℤ) (now : ℚ) : Except Unit (UserWord × ℚ) :=
  match GRADE_SCORES grade with
  | none => Except.error ()
  | some score =>
    let uw : UserWord :=
      match user_word with
      | none =>
          { user_id := user_id
            easiness := 2.5
            interval := 0.0
            repetitions := 0
            next_due := now
            last_grade := some grade }
      | some w => w
    let easiness := uw.easiness
    let repetitions := uw.repetitions
    let interval_days := uw.interval
    let last_grade := uw.last_grade
    if 4 ≤ score then
      -- Recognize - word is known well
      let repetitions := repetitions + 1
      let interval_days :=
        if (last_grade = some "barely" ∨ last_grade = some "not")
            ∧ repetitions ≤ 3 then
          -- More conservative intervals for recovering words
          if repetitions = 1 then 0.5
          else if repetitions = 2 then 1.5
          else if repetitions = 3 then 3.0
          else max 1.0 (interval_days * (easiness * 0.8))
        else
          -- Normal progression for stable words
          if repetitions = 1 then 1.0
          else if repetitions = 2 then 3.0
          else if repetitions = 3 then 7.0
          else max 1.0 (interval_days * easiness)
      let easiness :=
        max 1.3 (easiness +
          (0.1 - ((5 : ℚ) - (score : ℚ)) * (0.08 + ((5 : ℚ) - (score : ℚ)) * 0.02)))
      finalizeWord uw easiness repetitions interval_days (now + interval_days) grade
    else if score = 3 then
      -- Barely - needs reinforcement within the same day
      let repetitions := max 1 repetitions
      let interval_days :=
        if last_grade = some "barely" then 0.1 else 0.2
      let next_due :=
        if last_grade = some "barely" then now + minutes 10
        else now + minutes 30
      let easiness := max 1.3 (easiness - 0.15)
      finalizeWord uw easiness repetitions interval_days next_due grade
    else
      -- Not - red button behavior
      let repetitions := 0
      let interval_days := (0.0 : ℚ)
      let next_due :=
        if last_grade = some "not" then now + minutes 1
        else if last_grade = some "barely" then now + minutes 2
        else now + minutes 3
      let easiness := max 1.3 (easiness - 0.25)
      finalizeWord uw easiness repetitions interval_days next_due grade

/-- Prior repetitions of an optional state, an absent state counting as 0. -/
def priorRepetitions (uw : Option UserWord) : ℕ :=
  match uw with
  | none => 0
  | some w => w.repetitions

/-- The interval chosen by the `score >= 4` ("recognize") branch for an
existing record `w`, after the increment `repetitions += 1`. -/
def strongInterval (w : UserWord) : ℚ :=
  if (w.last_grade = some "barely" ∨ w.last_grade = some "not")
      ∧ w.repetitions + 1 ≤ 3 then
    if w.repetitions + 1 = 1 then 0.5
    else if w.repetitions + 1 = 2 then 1.5
    else if w.repetitions + 1 = 3 then 3.0
    else max 1.0 (w.interval * (w.easiness * 0.8))
  else
    if w.repetitions + 1 = 1 then 1.0
    else if w.repetitions + 1 = 2 then 3.0
    else if w.repetitions + 1 = 3 then 7.0
    else max 1.0 (w.interval * w.easiness)

/-- Rounding half-to-even never goes below the floor. -/
theorem roundHalfEven_ge_floor (q : ℚ) : ⌊q⌋ ≤ roundHalfEven q := by
  unfold roundHalfEven
  split_ifs <;> omega

/-- Rounding to 4 decimals preserves the easiness floor `1.3`. -/
theorem le_round4_of_le (q : ℚ) (h : (1.3 : ℚ) ≤ q) : (1.3 : ℚ) ≤ round4 q := by
  have h1 : (13000 : ℚ) ≤ q * 10000 := by linarith
  have h2 : (13000 : ℤ) ≤ ⌊q * 10000⌋ := Int.le_floor.mpr (by exact_mod_cast h1)
  have h3 : (13000 : ℤ) ≤ roundHalfEven (q * 10000) :=
    le_trans h2 (roundHalfEven_ge_floor _)
  have h4 : (13000 : ℚ) ≤ (roundHalfEven (q * 10000) : ℚ) := by exact_mod_cast h3
  unfold round4
  linarith

/-- Rounding to 4 decimals is the identity on values with at most 4 decimal places. -/
theorem round4_eq_self (m : ℤ) : round4 ((m : ℚ) / 10000) = (m : ℚ) / 10000 := by
  unfold round4 roundHalfEven
  have h : ((m : ℚ) / 10000) * 10000 = (m : ℚ) := by
    field_simp
  rw [h, Int.floor_intCast]
  norm_num

/-- Inversion for the shared finalization step. -/
theorem finalizeWord_ok (uw : UserWord) (e : ℚ) (r : ℕ) (i nd : ℚ)
    (g : String) (w : UserWord) (d : ℚ)
    (h : finalizeWord uw e r i nd g = Except.ok (w, d)) :
    w = { uw with
            easiness := round4 e, repetitions := r, interval := i,
            next_due := nd, last_grade := some g }
      ∧ d = nd := by
  unfold finalizeWord at h
  injection h with h1
  exact ⟨congrArg Prod.fst h1 |>.symm, congrArg Prod.snd h1 |>.symm⟩

/-- Evaluation: Fail branch on an existing record. -/
theorem compute_schedule_not_some (w : UserWord) (uid : ℤ) (now : ℚ) :
    compute_schedule (some w) "not" uid now =
      finalizeWord w (max 1.3 (w.easiness - 0.25)) 0 0.0
        (if w.last_grade = some "not" then now + minutes 1
         else if w.last_grade = some "barely" then now + minutes 2
         else now + minutes 3)
        "not" := by
  simp [compute_schedule, GRADE_SCORES]

/-- Evaluation: Partial branch on an existing record. -/
theorem compute_schedule_barely_some (w : UserWord) (uid : ℤ) (now : ℚ) :
    compute_schedule (some w) "barely" uid now =
      finalizeWord w (max 1.3 (w.easiness - 0.15)) (max 1 w.repetitions)
        (if w.last_grade = some "barely" then 0.1 else 0.2)
        (if w.last_grade = some "barely" then now + minutes 10
         else now + minutes 30)
        "barely" := by
  simp [compute_schedule, GRADE_SCORES]

/-- Evaluation: Strong branch on an existing record. -/
theorem compute_schedule_recognize_some (w : UserWord) (uid : ℤ) (now : ℚ) :
    compute_schedule (some w) "recognize" uid now =
      finalizeWord w (max 1.3 (w.easiness + 0.1)) (w.repetitions + 1)
        (strongInterval w) (now + strongInterval w) "recognize" := by
  simp [compute_schedule, GRADE_SCORES, strongInterval]

/-- Evaluation: Fail branch on a brand-new item (state = None); the record is
synthesized with `last_grade = grade`, so the consecutive-failure arm fires. -/
theorem compute_schedule_not_none (uid : ℤ) (now : ℚ) :
    compute_schedule none "not" uid now =
      Except.ok
        ({ user_id := uid, easiness := 2.25, interval := 0, repetitions := 0,
           next_due := now + minutes 1, last_grade := some "not" },
         now + minutes 1) := by
  simp [compute_schedule, GRADE_SCORES]
  norm_num [finalizeWord, round4, roundHalfEven, minutes]

/-- Evaluation: Partial branch on a brand-new item (state = None); the record
is synthesized with `last_grade = grade`, so the consecutive-partial arm
fires. -/
theorem compute_schedule_barely_none (uid : ℤ) (now : ℚ) :
    compute_schedule none "barely" uid now =
      Except.ok
        ({ user_id := uid, easiness := 2.35, interval := 0.1, repetitions := 1,
           next_due := now + minutes 10, last_grade := some "barely" },
         now + minutes 10) := by
  simp [compute_schedule, GRADE_SCORES]
  norm_num [finalizeWord, round4, roundHalfEven, minutes]

/-- Evaluation: Strong branch on a brand-new item (state = None). -/
theorem compute_schedule_recognize_none (uid : ℤ) (now : ℚ) :
    compute_schedule none "recognize" uid now =
      Except.ok
        ({ user_id := uid, easiness := 2.6, interval := 1, repetitions := 1,
           next_due := now + 1, last_grade := some "recognize" },
         now + 1) := by
  simp [compute_schedule, GRADE_SCORES]
  norm_num [finalizeWord, round4, roundHalfEven, minutes]

/-- Extract component equalities from a successful-result equation. -/
theorem ok_pair_inj {a w : UserWord} {b d : ℚ}
    (h : (Except.ok (a, b) : Except Unit (UserWord × ℚ)) = Except.ok (w, d)) :
    a = w ∧ b = d := by
  injection h with h1
  exact ⟨congrArg Prod.fst h1, congrArg Prod.snd h1⟩

/-- A successful call forces the grade to be one of the three valid labels. -/
theorem ok_grade_valid (uw : Option UserWord) (g : String) (uid : ℤ) (now : ℚ)
    (r : UserWord × ℚ) (h : compute_schedule uw g uid now = Except.ok r) :
    g = "recognize" ∨ g = "barely" ∨ g = "not" := by
  by_contra hc
  push_neg at hc
  obtain ⟨h1, h2, h3⟩ := hc
  simp [compute_schedule, GRADE_SCORES, h1, h2, h3] at h

/-- The interval picked by the Strong branch is at least half a day. -/
theorem strongInterval_ge_half (w : UserWord) :
    (0.5 : ℚ) ≤ strongInterval w := by
  unfold strongInterval
  split_ifs <;> norm_num [le_max_iff]

/-- C1: a brand-new item (state = None) graded Fail ("not").  The claim's
values `repetitions = 0`, `interval = 0.0`, `easiness = 2.25` do hold, but the
record is synthesized with `last_grade = grade` (not none), so the
consecutive-failure arm fires and `next_due = now + 1 minute` — not the
first-failure offset `now + 3 minutes` the claim (and the code's own
"First time failing" comment) prescribe. -/
theorem C1_new_item_first_fail :
    compute_schedule none "not" 1 0 =
      Except.ok
        ({ user_id := 1, easiness := 2.25, interval := 0, repetitions := 0,
           next_due := minutes 1, last_grade := some "not" }, minutes 1)
      ∧ minutes 1 ≠ minutes 3 := by
  constructor
  · rw [compute_schedule_not_none]
    norm_num
  · norm_num [minutes]

/-- C2: after every successful call, whatever the prior state and grade, the
stored easiness is at least 1.3 — the floor survives the final rounding. -/
theorem C2_easiness_floor (uw : Option UserWord) (grade : String) (uid : ℤ)
    (now : ℚ) (w : UserWord) (d : ℚ)
    (h : compute_schedule uw grade uid now = Except.ok (w, d)) :
    (1.3 : ℚ) ≤ w.easiness := by
  rcases ok_grade_valid uw grade uid now (w, d) h with rfl | rfl | rfl
  · cases uw with
    | none =>
        rw [compute_schedule_recognize_none] at h
        obtain ⟨rfl, rfl⟩ := ok_pair_inj h
        norm_num
    | some w0 =>
        rw [compute_schedule_recognize_some] at h
        obtain ⟨rfl, rfl⟩ := finalizeWord_ok _ _ _ _ _ _ _ _ h
        exact le_round4_of_le _ (le_max_left _ _)
  · cases uw with
    | none =>
        rw [compute_schedule_barely_none] at h
        obtain ⟨rfl, rfl⟩ := ok_pair_inj h
        norm_num
    | some w0 =>
        rw [compute_schedule_barely_some] at h
        obtain ⟨rfl, rfl⟩ := finalizeWord_ok _ _ _ _ _ _ _ _ h
        exact le_round4_of_le _ (le_max_left _ _)
  · cases uw with
    | none =>
        rw [compute_schedule_not_none] at h
        obtain ⟨rfl, rfl⟩ := ok_pair_inj h
        norm_num
    | some w0 =>
        rw [compute_schedule_not_some] at h
        obtain ⟨rfl, rfl⟩ := finalizeWord_ok _ _ _ _ _ _ _ _ h
        exact le_round4_of_le _ (le_max_left _ _)

/-- Witness for C2 at a concrete input: a new item graded "not". -/
theorem C2_easiness_floor_witness :
    compute_schedule none "not" 0 0 =
        Except.ok
          ({ user_id := 0, easiness := 2.25, interval := 0, repetitions := 0,
             next_due := 0 + minutes 1, last_grade := some "not" },
           0 + minutes 1)
      ∧ (1.3 : ℚ) ≤
          ({ user_id := 0, easiness := 2.25, interval := 0, repetitions := 0,
             next_due := 0 + minutes 1,
             last_grade := some "not" } : UserWord).easiness :=
  ⟨compute_schedule_not_none 0 0,
   C2_easiness_floor none "not" 0 0 _ _ (compute_schedule_not_none 0 0)⟩

/-- C3: the returned next_due equals the stored next_due, and neither ever
precedes the grading time `now`. -/
theorem C3_next_due_monotone (uw : Option UserWord) (grade : String) (uid : ℤ)
    (now : ℚ) (w : UserWord) (d : ℚ)
    (h : compute_schedule uw grade uid now = Except.ok (w, d)) :
    now ≤ d ∧ w.next_due = d := by
  rcases ok_grade_valid uw grade uid now (w, d) h with rfl | rfl | rfl
  · cases uw with
    | none =>
        rw [compute_schedule_recognize_none] at h
        obtain ⟨rfl, rfl⟩ := ok_pair_inj h
        exact ⟨by linarith, rfl⟩
    | some w0 =>
        rw [compute_schedule_recognize_some] at h
        obtain ⟨rfl, rfl⟩ := finalizeWord_ok _ _ _ _ _ _ _ _ h
        refine ⟨?_, rfl⟩
        have := strongInterval_ge_half w0
        linarith
  · cases uw with
    | none =>
        rw [compute_schedule_barely_none] at h
        obtain ⟨rfl, rfl⟩ := ok_pair_inj h
        exact ⟨by norm_num [minutes], rfl⟩
    | some w0 =>
        rw [compute_schedule_barely_some] at h
        obtain ⟨rfl, rfl⟩ := finalizeWord_ok _ _ _ _ _ _ _ _ h
        refine ⟨?_, rfl⟩
        split_ifs <;> norm_num [minutes]
  · cases uw with
    | none =>
        rw [compute_schedule_not_none] at h
        obtain ⟨rfl, rfl⟩ := ok_pair_inj h
        exact ⟨by norm_num [minutes], rfl⟩
    | some w0 =>
        rw [compute_schedule_not_some] at h
        obtain ⟨rfl, rfl⟩ := finalizeWord_ok _ _ _ _ _ _ _ _ h
        refine ⟨?_, rfl⟩
        split_ifs <;> norm_num [minutes]

/-- Witness for C3 at a concrete input: a new item graded "barely". -/
theorem C3_next_due_monotone_witness :
    compute_schedule none "barely" 0 0 =
        Except.ok
          ({ user_id := 0, easiness := 2.35, interval := 0.1, repetitions := 1,
             next_due := 0 + minutes 10, last_grade := some "barely" },
           0 + minutes 10)
      ∧ (0 : ℚ) ≤ 0 + minutes 10
      ∧ ({ user_id := 0, easiness := 2.35, interval := 0.1, repetitions := 1,
           next_due := 0 + minutes 10,
           last_grade := some "barely" } : UserWord).next_due = 0 + minutes 10 :=
  ⟨compute_schedule_barely_none 0 0,
   (C3_next_due_monotone none "barely" 0 0 _ _ (compute_schedule_barely_none 0 0)).1,
   (C3_next_due_monotone none "barely" 0 0 _ _ (compute_schedule_barely_none 0 0)).2⟩

/-- If two rationals are integer multiples of `1/10000`, so is their max, and
`round(·, 4)` leaves the clamped easiness unchanged. -/
theorem round4_max_grid (m k : ℤ) :
    round4 (max 1.3 ((m : ℚ) / 10000 - (k : ℚ) / 10000)) =
      max 1.3 ((m : ℚ) / 10000 - (k : ℚ) / 10000) := by
  have h1 : (m : ℚ) / 10000 - (k : ℚ) / 10000 = ((m - k : ℤ) : ℚ) / 10000 := by
    push_cast
    ring
  have h2 : (1.3 : ℚ) = ((13000 : ℤ) : ℚ) / 10000 := by norm_num
  have h3 : max (((13000 : ℤ) : ℚ) / 10000) (((m - k : ℤ) : ℚ) / 10000) =
      ((max 13000 (m - k) : ℤ) : ℚ) / 10000 := by
    rw [Int.cast_max, max_div_div_right (by norm_num : (0 : ℚ) ≤ 10000)]
  rw [h1, h2, h3]
  exact round4_eq_self _

/-- C4: repetitions after a call — Fail resets to 0, Partial floors at 1
without advancing, Strong increments (an absent state counting as 0). -/
theorem C4_repetitions_update (uw : Option UserWord) (uid : ℤ) (now : ℚ)
    (wf wp ws : UserWord) (df dp ds : ℚ)
    (hf : compute_schedule uw "not" uid now = Except.ok (wf, df))
    (hp : compute_schedule uw "barely" uid now = Except.ok (wp, dp))
    (hs : compute_schedule uw "recognize" uid now = Except.ok (ws, ds)) :
    wf.repetitions = 0 ∧ wp.repetitions = max 1 (priorRepetitions uw)
      ∧ ws.repetitions = priorRepetitions uw + 1 := by
  cases uw with
  | none =>
      rw [compute_schedule_not_none] at hf
      rw [compute_schedule_barely_none] at hp
      rw [compute_schedule_recognize_none] at hs
      obtain ⟨rfl, rfl⟩ := ok_pair_inj hf
      obtain ⟨rfl, rfl⟩ := ok_pair_inj hp
      obtain ⟨rfl, rfl⟩ := ok_pair_inj hs
      norm_num [priorRepetitions]
  | some w0 =>
      rw [compute_schedule_not_some] at hf
      rw [compute_schedule_barely_some] at hp
      rw [compute_schedule_recognize_some] at hs
      obtain ⟨rfl, rfl⟩ := finalizeWord_ok _ _ _ _ _ _ _ _ hf
      obtain ⟨rfl, rfl⟩ := finalizeWord_ok _ _ _ _ _ _ _ _ hp
      obtain ⟨rfl, rfl⟩ := finalizeWord_ok _ _ _ _ _ _ _ _ hs
      exact ⟨rfl, rfl, rfl⟩

/-- Witness for C4 at a concrete input: a new item under each grade. -/
theorem C4_repetitions_update_witness :
    ({ user_id := 0, easiness := 2.25, interval := 0, repetitions := 0,
       next_due := 0 + minutes 1,
       last_grade := some "not" } : UserWord).repetitions = 0
      ∧ ({ user_id := 0, easiness := 2.35, interval := 0.1, repetitions := 1,
           next_due := 0 + minutes 10,
           last_grade := some "barely" } : UserWord).repetitions =
          max 1 (priorRepetitions none)
      ∧ ({ user_id := 0, easiness := 2.6, interval := 1, repetitions := 1,
           next_due := 0 + 1,
           last_grade := some "recognize" } : UserWord).repetitions =
          priorRepetitions none + 1 :=
  C4_repetitions_update none 0 0 _ _ _ _ _ _
    (compute_schedule_not_none 0 0) (compute_schedule_barely_none 0 0)
    (compute_schedule_recognize_none 0 0)

/-- C5: determinism — identical state, grade and grading time (the single
clock read, surfaced as the `now` parameter) give identical results; the
function consults no other input and uses no randomness. -/
theorem C5_deterministic (s₁ s₂ : Option UserWord) (g₁ g₂ : String)
    (u₁ u₂ : ℤ) (n₁ n₂ : ℚ) (hs : s₁ = s₂) (hg : g₁ = g₂) (hu : u₁ = u₂)
    (hn : n₁ = n₂) :
    compute_schedule s₁ g₁ u₁ n₁ = compute_schedule s₂ g₂ u₂ n₂ := by
  rw [hs, hg, hu, hn]

/-- Witness for C5 at a concrete input. -/
theorem C5_deterministic_witness :
    compute_schedule none "not" 0 0 = compute_schedule none "not" 0 0 :=
  C5_deterministic none none "not" "not" 0 0 0 0 rfl rfl rfl rfl

/-- C6, counterexample: a recovering state (`last_grade = "not"`) with prior
`repetitions = 4`, `interval = 10`, `easiness = 2.5`, graded Strong.  The
post-increment repetitions is 5 ≥ 4, which fails the recovery guard
`repetitions <= 3`, so the normal arm gives
`interval = max(1.0, 10 * 2.5) = 25` — not the claimed
`max(1.0, interval * easiness * 0.8) = 20`. -/
theorem C6_counterexample :
    compute_schedule
        (some { user_id := 1, easiness := 2.5, interval := 10, repetitions := 4,
                next_due := 0, last_grade := some "not" }) "recognize" 1 0 =
      Except.ok
        ({ user_id := 1, easiness := 2.6, interval := 25, repetitions := 5,
           next_due := 0 + 25, last_grade := some "recognize" }, 0 + 25)
      ∧ (25 : ℚ) ≠ max 1.0 (10 * ((2.5 : ℚ) * 0.8)) := by
  constructor
  · rw [compute_schedule_recognize_some]
    simp [finalizeWord, strongInterval, round4, roundHalfEven, max_def]
    norm_num
  · norm_num [max_def]

/-- C6 (amended): Strong on a recovering existing state (last_grade Partial or
Fail).  With post-increment repetitions at most 3 the recovery table applies:
repetitions becoming 1 gives interval 0.5 days and next_due = now + 0.5 days
(12 hours), becoming 2 gives 1.5 days, becoming 3 gives 3.0 days.  A
post-increment repetitions of 4 or more fails the `repetitions <= 3` guard and
falls to the normal arm `max(1.0, interval * easiness)` — the recovery-branch
`max(1.0, interval * easiness * 0.8)` arm is unreachable. -/
theorem C6_recovery_schedule (w : UserWord) (uid : ℤ) (now : ℚ)
    (w' : UserWord) (d : ℚ)
    (hlg : w.last_grade = some "barely" ∨ w.last_grade = some "not")
    (h : compute_schedule (some w) "recognize" uid now = Except.ok (w', d)) :
    (w.repetitions = 0 → w'.interval = 0.5 ∧ d = now + 0.5)
      ∧ (w.repetitions = 1 → w'.interval = 1.5)
      ∧ (w.repetitions = 2 → w'.interval = 3.0)
      ∧ (3 ≤ w.repetitions → w'.interval = max 1.0 (w.interval * w.easiness)) := by
  rw [compute_schedule_recognize_some] at h
  obtain ⟨rfl, rfl⟩ := finalizeWord_ok _ _ _ _ _ _ _ _ h
  refine ⟨fun hr => ?_, fun hr => ?_, fun hr => ?_, fun hr => ?_⟩
  · rcases hlg with h' | h' <;> simp [strongInterval, hr, h']
  · rcases hlg with h' | h' <;> simp [strongInterval, hr, h']
  · rcases hlg with h' | h' <;> simp [strongInterval, hr, h']
  · have h1 : ¬(w.repetitions + 1 ≤ 3) := by omega
    have h2 : ¬(w.repetitions + 1 = 1) := by omega
    have h3 : ¬(w.repetitions + 1 = 2) := by omega
    have h4 : ¬(w.repetitions + 1 = 3) := by omega
    simp [strongInterval, h1, h2, h3, h4]

/-- Evaluation of the recovery scenario: `last_grade = "not"`, repetitions
becoming 1, graded Strong. -/
theorem recovery_example_eval :
    compute_schedule
        (some { user_id := 0, easiness := 2.25, interval := 0, repetitions := 0,
                next_due := 0, last_grade := some "not" }) "recognize" 0 0 =
      Except.ok
        ({ user_id := 0, easiness := 2.35, interval := 0.5, repetitions := 1,
           next_due := 0 + 0.5, last_grade := some "recognize" }, 0 + 0.5) := by
  rw [compute_schedule_recognize_some]
  simp [finalizeWord, strongInterval, round4, roundHalfEven, max_def]
  norm_num

/-- Witness for the amended C6 at the concrete recovery scenario. -/
theorem C6_recovery_schedule_witness :
    ({ user_id := 0, easiness := 2.35, interval := 0.5, repetitions := 1,
       next_due := 0 + 0.5,
       last_grade := some "recognize" } : UserWord).interval = 0.5
      ∧ (0 + 0.5 : ℚ) = 0 + 0.5 :=
  (C6_recovery_schedule
      { user_id := 0, easiness := 2.25, interval := 0, repetitions := 0,
        next_due := 0, last_grade := some "not" } 0 0 _ _
      (Or.inr rfl) recovery_example_eval).1 rfl

/-- C7: Partial ("barely") on an existing record.  A consecutive partial
(prior last_grade Partial) gives next_due = now + 10 minutes and interval 0.1
days; any other prior last_grade gives now + 30 minutes and interval 0.2
days.  Easiness becomes `max(1.3, easiness - 0.15)`, stored through the
4-decimal rounding — which changes nothing whenever the prior easiness is a
4-decimal value, as every scheduler-written or default easiness is. -/
theorem C7_barely_branch (w : UserWord) (uid : ℤ) (now : ℚ)
    (w' : UserWord) (d : ℚ)
    (h : compute_schedule (some w) "barely" uid now = Except.ok (w', d)) :
    (w.last_grade = some "barely" → d = now + minutes 10 ∧ w'.interval = 0.1)
      ∧ (w.last_grade ≠ some "barely" → d = now + minutes 30 ∧ w'.interval = 0.2)
      ∧ w'.easiness = round4 (max 1.3 (w.easiness - 0.15))
      ∧ (∀ m : ℤ, w.easiness = (m : ℚ) / 10000 →
          w'.easiness = max 1.3 (w.easiness - 0.15)) := by
  rw [compute_schedule_barely_some] at h
  obtain ⟨rfl, rfl⟩ := finalizeWord_ok _ _ _ _ _ _ _ _ h
  refine ⟨fun hlg => ?_, fun hlg => ?_, rfl, fun m hm => ?_⟩
  · simp [hlg]
  · simp [hlg]
  · show round4 (max 1.3 (w.easiness - 0.15)) = max 1.3 (w.easiness - 0.15)
    rw [hm]
    have hk : (0.15 : ℚ) = ((1500 : ℤ) : ℚ) / 10000 := by norm_num
    rw [hk]
    exact round4_max_grid m 1500

/-- Witness for C7: the spec's scenario 4 — `repetitions = 1`,
`last_grade = Strong`, `easiness = 2.5`, `interval = 1.0`, graded Partial. -/
theorem C7_barely_branch_witness :
    ((0 : ℚ) + minutes 30 = 0 + minutes 30
        ∧ ({ user_id := 0, easiness := 2.35, interval := 0.2, repetitions := 1,
             next_due := 0 + minutes 30,
             last_grade := some "barely" } : UserWord).interval = 0.2)
      ∧ ({ user_id := 0, easiness := 2.35, interval := 0.2, repetitions := 1,
           next_due := 0 + minutes 30,
           last_grade := some "barely" } : UserWord).easiness =
          max 1.3 ((2.5 : ℚ) - 0.15) := by
  have hev :
      compute_schedule
          (some { user_id := 0, easiness := 2.5, interval := 1, repetitions := 1,
                  next_due := 0, last_grade := some "recognize" }) "barely" 0 0 =
        Except.ok
          ({ user_id := 0, easiness := 2.35, interval := 0.2, repetitions := 1,
             next_due := 0 + minutes 30, last_grade := some "barely" },
           0 + minutes 30) := by
    rw [compute_schedule_barely_some]
    simp [finalizeWord, round4, roundHalfEven, max_def]
    norm_num
  have hc := C7_barely_branch _ 0 0 _ _ hev
  exact ⟨hc.2.1 (by simp), hc.2.2.2 25000 (by norm_num)⟩

/-- C8: Fail ("not") on an existing record.  The next_due offset depends only
on the prior last_grade: Fail → +1 minute, Partial → +2 minutes, anything
else → +3 minutes.  Easiness becomes `max(1.3, easiness - 0.25)`, stored
through the 4-decimal rounding — the identity whenever the prior easiness is
a 4-decimal value, as every scheduler-written or default easiness is. -/
theorem C8_fail_branch (w : UserWord) (uid : ℤ) (now : ℚ)
    (w' : UserWord) (d : ℚ)
    (h : compute_schedule (some w) "not" uid now = Except.ok (w', d)) :
    (w.last_grade = some "not" → d = now + minutes 1)
      ∧ (w.last_grade = some "barely" → d = now + minutes 2)
      ∧ (w.last_grade ≠ some "not" ∧ w.last_grade ≠ some "barely" →
          d = now + minutes 3)
      ∧ w'.easiness = round4 (max 1.3 (w.easiness - 0.25))
      ∧ (∀ m : ℤ, w.easiness = (m : ℚ) / 10000 →
          w'.easiness = max 1.3 (w.easiness - 0.25)) := by
  rw [compute_schedule_not_some] at h
  obtain ⟨rfl, rfl⟩ := finalizeWord_ok _ _ _ _ _ _ _ _ h
  refine ⟨fun hlg => ?_, fun hlg => ?_, fun hlg => ?_, rfl, fun m hm => ?_⟩
  · simp [hlg]
  · simp [hlg]
  · simp [hlg.1, hlg.2]
  · show round4 (max 1.3 (w.easiness - 0.25)) = max 1.3 (w.easiness - 0.25)
    rw [hm]
    have hk : (0.25 : ℚ) = ((2500 : ℤ) : ℚ) / 10000 := by norm_num
    rw [hk]
    exact round4_max_grid m 2500

/-- Witness for C8: the spec's scenario 3 — `last_grade = Fail`,
`easiness = 2.25`, graded Fail again: 1-minute offset and easiness 2.0. -/
theorem C8_fail_branch_witness :
    (0 : ℚ) + minutes 1 = 0 + minutes 1
      ∧ ({ user_id := 0, easiness := 2, interval := 0, repetitions := 0,
           next_due := 0 + minutes 1,
           last_grade := some "not" } : UserWord).easiness =
          max 1.3 ((2.25 : ℚ) - 0.25) := by
  have hev :
      compute_schedule
          (some { user_id := 0, easiness := 2.25, interval := 0, repetitions := 0,
                  next_due := 0, last_grade := some "not" }) "not" 0 0 =
        Except.ok
          ({ user_id := 0, easiness := 2, interval := 0, repetitions := 0,
             next_due := 0 + minutes 1, last_grade := some "not" },
           0 + minutes 1) := by
    rw [compute_schedule_not_some]
    simp [finalizeWord, round4, roundHalfEven, max_def]
    norm_num
  have hc := C8_fail_branch _ 0 0 _ _ hev
  exact ⟨hc.1 rfl, hc.2.2.2.2 22500 (by norm_num)⟩

/-- C9: grade contract — any grade outside the closed three-value set makes
the call fail at the dictionary lookup, before any field of the passed-in
state is assigned (the error result carries no updated record, so the state
is unchanged); each of the three valid grades succeeds without error. -/
theorem C9_grade_contract (uw : Option UserWord) (g : String) (uid : ℤ)
    (now : ℚ) :
    (g ≠ "recognize" ∧ g ≠ "barely" ∧ g ≠ "not" →
        compute_schedule uw g uid now = Except.error ())
      ∧ (g = "recognize" ∨ g = "barely" ∨ g = "not" →
        ∃ r, compute_schedule uw g uid now = Except.ok r) := by
  constructor
  · rintro ⟨h1, h2, h3⟩
    simp [compute_schedule, GRADE_SCORES, h1, h2, h3]
  · rintro (rfl | rfl | rfl) <;> cases uw with
    | none =>
        first
          | exact ⟨_, compute_schedule_recognize_none uid now⟩
          | exact ⟨_, compute_schedule_barely_none uid now⟩
          | exact ⟨_, compute_schedule_not_none uid now⟩
    | some w0 =>
        first
          | exact ⟨_, compute_schedule_recognize_some w0 uid now⟩
          | exact ⟨_, compute_schedule_barely_some w0 uid now⟩
          | exact ⟨_, compute_schedule_not_some w0 uid now⟩

/-- Witness for C9: an invalid grade errors, a valid one succeeds. -/
theorem C9_grade_contract_witness :
    compute_schedule none "unknown" 0 0 = Except.error ()
      ∧ ∃ r, compute_schedule none "recognize" 0 0 = Except.ok r :=
  ⟨(C9_grade_contract none "unknown" 0 0).1 (by simp),
   (C9_grade_contract none "recognize" 0 0).2 (Or.inl rfl)⟩

/-- C10: after any Strong grade the stored interval is at least 0.5 days and
the returned next_due is at least 12 hours (0.5 days) after now. -/
theorem C10_strong_min_interval (uw : Option UserWord) (uid : ℤ) (now : ℚ)
    (w : UserWord) (d : ℚ)
    (h : compute_schedule uw "recognize" uid now = Except.ok (w, d)) :
    (0.5 : ℚ) ≤ w.interval ∧ now + 0.5 ≤ d := by
  cases uw with
  | none =>
      rw [compute_schedule_recognize_none] at h
      obtain ⟨rfl, rfl⟩ := ok_pair_inj h
      exact ⟨by norm_num, by norm_num⟩
  | some w0 =>
      rw [compute_schedule_recognize_some] at h
      obtain ⟨rfl, rfl⟩ := finalizeWord_ok _ _ _ _ _ _ _ _ h
      have := strongInterval_ge_half w0
      exact ⟨this, by linarith⟩

/-- Witness for C10 at a concrete input: a new item graded Strong. -/
theorem C10_strong_min_interval_witness :
    (0.5 : ℚ) ≤
        ({ user_id := 0, easiness := 2.6, interval := 1, repetitions := 1,
           next_due := 0 + 1, last_grade := some "recognize" } : UserWord).interval
      ∧ (0 : ℚ) + 0.5 ≤ 0 + 1 :=
  C10_strong_min_interval none 0 0 _ _ (compute_schedule_recognize_none 0 0)
